import Mathlib

/-!
Verification of the single-body gravity propagator from
src/planet/cython_numba_planet.ipynb (the pure-Python cell defining
Planet, single_step and propagate).

Real numbers model Python floats; Python division raises
ZeroDivisionError on a zero denominator, so the two divisions in the
code (by r3 in the force computation, by m in the velocity update) are
embedded as Except results, as is the division computing dt in
propagate.
-/

/-- The state record of the source: three position coordinates, three
velocity coordinates, and a mass, all scalars. -/
structure Planet where
  x : ℝ
  y : ℝ
  z : ℝ
  vx : ℝ
  vy : ℝ
  vz : ℝ
  m : ℝ

/-- The constructor of the source class Planet: it takes no arguments and
always initializes x = 1.0, y = 0, z = 0, vx = 0, vy = 0, vz = 1.0, m = 1.0. -/
def Planet.init : Planet :=
  { x := 1, y := 0, z := 0, vx := 0, vy := 0, vz := 1, m := 1 }

/-- The only failure the embedded code can produce: Python's
ZeroDivisionError, raised by a division whose denominator is zero. -/
inductive PyError where
  | zeroDivisionError
  deriving DecidableEq

/-- Embedding of single_step(planet, dt): compute r and r3 from the
current position, the force components from the current position, then
update the position from the current velocity and finally the velocity
from the force.  The division by r3 raises ZeroDivisionError when
r3 = 0, and the division by m raises when m = 0; both are modelled by
returning an error. -/
noncomputable def singleStep (planet : Planet) (dt : ℝ) : Except PyError Planet :=
  let r := Real.sqrt (planet.x ^ 2 + planet.y ^ 2 + planet.z ^ 2)
  let r3 := r ^ 3
  if r3 = 0 then Except.error PyError.zeroDivisionError else
  let Fx := -planet.x / r3
  let Fy := -planet.y / r3
  let Fz := -planet.z / r3
  let planet := { planet with x := planet.x + planet.vx * dt }
  let planet := { planet with y := planet.y + planet.vy * dt }
  let planet := { planet with z := planet.z + planet.vz * dt }
  let m := planet.m
  if m = 0 then Except.error PyError.zeroDivisionError else
  let planet := { planet with vx := planet.vx + Fx * dt / m }
  let planet := { planet with vy := planet.vy + Fy * dt / m }
  let planet := { planet with vz := planet.vz + Fz * dt / m }
  Except.ok planet

/-- The body of the loop in propagate: run single_step n times,
feeding each result into the next and aborting on an error, exactly as
a raised exception aborts the Python loop. -/
noncomputable def stepLoop (planet : Planet) (dt : ℝ) : Nat → Except PyError Planet
  | 0 => Except.ok planet
  | n + 1 =>
    match singleStep planet dt with
    | Except.error e => Except.error e
    | Except.ok q => stepLoop q dt n

/-- Embedding of propagate(planet, time_span, num_steps): dt =
time_span / num_steps raises ZeroDivisionError when num_steps = 0;
otherwise the loop over range(num_steps) runs single_step
max(num_steps, 0) times with that dt. -/
noncomputable def propagate (planet : Planet) (timeSpan : ℝ) (numSteps : ℤ) :
    Except PyError Planet :=
  if numSteps = 0 then Except.error PyError.zeroDivisionError
  else stepLoop planet (timeSpan / (numSteps : ℝ)) numSteps.toNat

/-- The radial distance of a body from the origin. -/
noncomputable def radius (p : Planet) : ℝ :=
  Real.sqrt (p.x ^ 2 + p.y ^ 2 + p.z ^ 2)

/-- The radius of a body after n single steps of size dt (zero when a
step raised). -/
noncomputable def radiusAfter (p : Planet) (dt : ℝ) (n : Nat) : ℝ :=
  match stepLoop p dt n with
  | Except.ok q => radius q
  | Except.error _ => 0

/-- Calling single_step n times directly, threading each result into
the next call, as the spec describes the multi-step contract. -/
noncomputable def iterSingleStep (dt : ℝ) : Nat → Planet → Except PyError Planet
  | 0, p => Except.ok p
  | n + 1, p =>
    match singleStep p dt with
    | Except.error e => Except.error e
    | Except.ok q => iterSingleStep dt n q

/- ### Helper lemmas -/

lemma sum_sq_nonneg (x y z : ℝ) : 0 ≤ x ^ 2 + y ^ 2 + z ^ 2 := by positivity

lemma r3_pos (x y z : ℝ) (h : x ^ 2 + y ^ 2 + z ^ 2 ≠ 0) :
    0 < Real.sqrt (x ^ 2 + y ^ 2 + z ^ 2) ^ 3 := by
  have hpos : 0 < x ^ 2 + y ^ 2 + z ^ 2 :=
    lt_of_le_of_ne (sum_sq_nonneg x y z) (Ne.symm h)
  exact pow_pos (Real.sqrt_pos.mpr hpos) 3

/-- Closed form of a successful single step: prestep position feeds the
force, prestep velocity feeds the position update. -/
lemma singleStep_ok (p : Planet) (dt : ℝ)
    (hr : p.x ^ 2 + p.y ^ 2 + p.z ^ 2 ≠ 0) (hm : p.m ≠ 0) :
    singleStep p dt = Except.ok
      { x := p.x + p.vx * dt
        y := p.y + p.vy * dt
        z := p.z + p.vz * dt
        vx := p.vx + (-p.x / Real.sqrt (p.x ^ 2 + p.y ^ 2 + p.z ^ 2) ^ 3) * dt / p.m
        vy := p.vy + (-p.y / Real.sqrt (p.x ^ 2 + p.y ^ 2 + p.z ^ 2) ^ 3) * dt / p.m
        vz := p.vz + (-p.z / Real.sqrt (p.x ^ 2 + p.y ^ 2 + p.z ^ 2) ^ 3) * dt / p.m
        m := p.m } := by
  have h3 : Real.sqrt (p.x ^ 2 + p.y ^ 2 + p.z ^ 2) ^ 3 ≠ 0 :=
    ne_of_gt (r3_pos p.x p.y p.z hr)
  simp only [singleStep]
  rw [if_neg h3, if_neg hm]

/-- A body on the positive x axis moving along it: the step stays on the
axis and the force reduces to the one-dimensional inverse square. -/
lemma singleStep_axis (x v m dt : ℝ) (hx : 0 < x) (hm : m ≠ 0) :
    singleStep { x := x, y := 0, z := 0, vx := v, vy := 0, vz := 0, m := m } dt =
      Except.ok
        { x := x + v * dt, y := 0, z := 0,
          vx := v + (-x / x ^ 3) * dt / m, vy := 0, vz := 0, m := m } := by
  have hx2 : (0 : ℝ) < x ^ 2 + 0 ^ 2 + 0 ^ 2 := by nlinarith
  have h := singleStep_ok { x := x, y := 0, z := 0, vx := v, vy := 0, vz := 0, m := m }
    dt (ne_of_gt hx2) hm
  have hsq : Real.sqrt (x ^ 2 + 0 ^ 2 + 0 ^ 2) = x := by
    rw [show x ^ 2 + 0 ^ 2 + 0 ^ 2 = x ^ 2 by ring]
    exact Real.sqrt_sq hx.le
  simp only at h
  rw [hsq] at h
  simpa using h

/-- A raised step never returns ok, so an ok result pins down the branch
taken; its mass field is the input mass. -/
lemma singleStep_mass_eq (p : Planet) (dt : ℝ) (q : Planet)
    (h : singleStep p dt = Except.ok q) : q.m = p.m := by
  simp only [singleStep] at h
  split at h
  · exact absurd h (by simp)
  · split at h
    · exact absurd h (by simp)
    · rw [Except.ok.injEq] at h
      rw [← h]

lemma stepLoop_mass_eq (dt : ℝ) :
    ∀ (n : Nat) (p q : Planet), stepLoop p dt n = Except.ok q → q.m = p.m := by
  intro n
  induction n with
  | zero =>
    intro p q h
    simp only [stepLoop, Except.ok.injEq] at h
    rw [← h]
  | succ k ih =>
    intro p q h
    simp only [stepLoop] at h
    cases hs : singleStep p dt with
    | error e => rw [hs] at h; exact absurd h (by simp)
    | ok r =>
      rw [hs] at h
      exact (ih r q h).trans (singleStep_mass_eq p dt r hs)

lemma propagate_of_neg (p : Planet) (T : ℝ) (N : ℤ) (hN : N < 0) :
    propagate p T N = Except.ok p := by
  unfold propagate
  rw [if_neg (by omega : ¬ N = 0)]
  rw [Int.toNat_of_nonpos hN.le]
  rfl

lemma stepLoop_eq_iterSingleStep (dt : ℝ) :
    ∀ (n : Nat) (p : Planet), stepLoop p dt n = iterSingleStep dt n p := by
  intro n
  induction n with
  | zero => intro p; rfl
  | succ k ih =>
    intro p
    simp only [stepLoop, iterSingleStep]
    cases hs : singleStep p dt with
    | error e => rfl
    | ok r => exact ih r

lemma planet_init_sum_sq : Planet.init.x ^ 2 + Planet.init.y ^ 2 + Planet.init.z ^ 2 ≠ 0 := by
  norm_num [Planet.init]

lemma planet_init_mass_ne : Planet.init.m ≠ 0 := by
  norm_num [Planet.init]

/-- Evaluation of one step from the initial body with dt = 1. -/
lemma singleStep_init_one :
    singleStep Planet.init 1 =
      Except.ok { x := 1, y := 0, z := 1, vx := -1, vy := 0, vz := 1, m := 1 } := by
  have h := singleStep_ok Planet.init 1 planet_init_sum_sq planet_init_mass_ne
  rw [h]
  norm_num [Planet.init, Real.sqrt_one]

/-- The pure radial free-fall initial state: position (1, 0, 0), zero
velocity, mass m. -/
def freefallBody (m : ℝ) : Planet :=
  { x := 1, y := 0, z := 0, vx := 0, vy := 0, vz := 0, m := m }

lemma radius_axis (x v m : ℝ) (hx : 0 ≤ x) :
    radius { x := x, y := 0, z := 0, vx := v, vy := 0, vz := 0, m := m } = x := by
  simp only [radius]
  rw [show x ^ 2 + 0 ^ 2 + 0 ^ 2 = x ^ 2 by ring]
  exact Real.sqrt_sq hx

lemma stepLoop_ok_step (p q : Planet) (dt : ℝ) (n : Nat)
    (h : singleStep p dt = Except.ok q) :
    stepLoop p dt (n + 1) = stepLoop q dt n := by
  simp only [stepLoop, h]

/- ### Claim theorems -/

/-- Claim C1 (amended): for every body whose position is not the origin and
whose mass is nonzero, and every dt, single_step performs exactly the
explicit-Euler update with pre-step values: with r = sqrt(x² + y² + z²)
and F = -position / r³ taken at the entry position, the new position is
position + (pre-step velocity)·dt and the new velocity is
velocity + (F/mass)·dt, the force being evaluated at the pre-step
position. -/
theorem singleStep_explicit_euler (p : Planet) (dt : ℝ)
    (hr : p.x ^ 2 + p.y ^ 2 + p.z ^ 2 ≠ 0) (hm : p.m ≠ 0) :
    singleStep p dt = Except.ok
      { x := p.x + p.vx * dt
        y := p.y + p.vy * dt
        z := p.z + p.vz * dt
        vx := p.vx + -p.x / radius p ^ 3 / p.m * dt
        vy := p.vy + -p.y / radius p ^ 3 / p.m * dt
        vz := p.vz + -p.z / radius p ^ 3 / p.m * dt
        m := p.m } := by
  rw [singleStep_ok p dt hr hm]
  simp only [radius, Except.ok.injEq, Planet.mk.injEq]
  refine ⟨trivial, trivial, trivial, by ring, by ring, by ring, trivial⟩

/-- Claim C1 witness: the explicit-Euler closed form evaluated at the
initial body with dt = 1. -/
theorem singleStep_explicit_euler_witness :
    singleStep Planet.init 1 =
      Except.ok { x := 1, y := 0, z := 1, vx := -1, vy := 0, vz := 1, m := 1 } := by
  have h := singleStep_explicit_euler Planet.init 1 planet_init_sum_sq planet_init_mass_ne
  rw [h]
  norm_num [Planet.init, radius, Real.sqrt_one]

/-- Claim C1 counterexample: at the origin, single_step does not perform
the Euler update at all — the force division raises ZeroDivisionError,
so no updated body is produced. -/
theorem singleStep_origin_no_euler_update :
    singleStep { x := 0, y := 0, z := 0, vx := 0, vy := 0, vz := 0, m := 1 } 2 =
      Except.error PyError.zeroDivisionError := by
  simp [singleStep]

/-- Claim C2: for every body, every time span T and every positive integer
N, propagate computes dt = T / N once and then runs single_step exactly N
times in sequence with that same dt: its result equals iterating
single_step N times directly. -/
theorem propagate_eq_iterSingleStep (p : Planet) (T : ℝ) (N : ℤ) (hN : 0 < N) :
    propagate p T N = iterSingleStep (T / (N : ℝ)) N.toNat p := by
  unfold propagate
  rw [if_neg (by omega : ¬ N = 0)]
  exact stepLoop_eq_iterSingleStep (T / (N : ℝ)) N.toNat p

/-- Claim C2 witness: the equivalence instantiated at the initial body
with T = 2 and N = 3. -/
theorem propagate_eq_iterSingleStep_witness :
    propagate Planet.init 2 3 = iterSingleStep (2 / ((3 : ℤ) : ℝ)) (Int.toNat 3) Planet.init :=
  propagate_eq_iterSingleStep Planet.init 2 3 (by decide)

/-- Claim C3 (amended): num_steps = 0 fails with the division-by-zero
error from computing dt, before any step runs; a negative num_steps does
not fail — dt is computed and the loop body never executes, so the call
returns the body unchanged. -/
theorem propagate_nonpositive_behavior (p : Planet) (T : ℝ) (N : ℤ) (hN : N ≤ 0) :
    propagate p T N =
      if N = 0 then Except.error PyError.zeroDivisionError else Except.ok p := by
  by_cases h : N = 0
  · subst h
    simp [propagate]
  · rw [if_neg h]
    exact propagate_of_neg p T N (lt_of_le_of_ne hN h)

/-- Claim C3 witness: propagate with num_steps = 0 fails with the
division-by-zero error. -/
theorem propagate_nonpositive_behavior_witness :
    propagate Planet.init 1 0 = Except.error PyError.zeroDivisionError := by
  have h := propagate_nonpositive_behavior Planet.init 1 0 (by decide)
  simpa using h

/-- Claim C3 counterexample: propagate with num_steps = -5 does not fail
at all — it returns the body unchanged. -/
theorem propagate_negative_returns_ok :
    propagate Planet.init 1 (-5) = Except.ok Planet.init :=
  propagate_of_neg Planet.init 1 (-5) (by decide)

/-- Claim C4 (amended): the constructor performs no mass validation and
accepts no mass argument; construction always succeeds and sets the mass
to the fixed value 1.0, which is strictly positive. -/
theorem planet_init_mass_positive : 0 < Planet.init.m := by
  norm_num [Planet.init]

/-- Claim C4 counterexample: the constructor is total — there is no
InvalidState failure path and no mass parameter to validate; every
construction succeeds with mass 1.0. -/
theorem planet_init_mass_is_one : Planet.init.m = 1 := rfl

/-- Claim C5 (amended): the constructor takes no arguments and always
produces the fixed initial state: position (1, 0, 0), velocity (0, 0, 1),
mass 1.0; initial conditions are not constructor parameters. -/
theorem planet_init_field_values :
    Planet.init.x = 1 ∧ Planet.init.y = 0 ∧ Planet.init.z = 0 ∧
    Planet.init.vx = 0 ∧ Planet.init.vy = 0 ∧ Planet.init.vz = 1 ∧
    Planet.init.m = 1 :=
  ⟨rfl, rfl, rfl, rfl, rfl, rfl, rfl⟩

/-- Claim C5 counterexample: the constructor's output is one fixed body —
a caller invoking the constructor cannot obtain any other initial
position, velocity or mass. -/
theorem planet_init_fixed_body :
    Planet.init = { x := 1, y := 0, z := 0, vx := 0, vy := 0, vz := 1, m := 1 } := rfl

/-- Claim C6: one single_step call with dt = 0 on the body at position
(1, 0, 0), velocity (0, 0, 1), mass 1.0 leaves position and velocity
exactly unchanged. -/
theorem singleStep_zero_dt_identity :
    singleStep Planet.init 0 = Except.ok Planet.init := by
  have h := singleStep_ok Planet.init 0 planet_init_sum_sq planet_init_mass_ne
  rw [h]
  norm_num [Planet.init]

/-- Claim C7 (amended): single_step raises no error whenever the body's
position is not the origin and its mass is nonzero, for any dt; at the
origin the force division raises ZeroDivisionError instead of producing
a numerical result. -/
theorem singleStep_no_error_off_origin (p : Planet) (dt : ℝ)
    (hr : p.x ^ 2 + p.y ^ 2 + p.z ^ 2 ≠ 0) (hm : p.m ≠ 0) (e : PyError) :
    singleStep p dt ≠ Except.error e := by
  rw [singleStep_ok p dt hr hm]
  simp

/-- Claim C7 witness: the non-raising theorem instantiated at the initial
body with dt = 5. -/
theorem singleStep_no_error_off_origin_witness :
    singleStep Planet.init 5 ≠ Except.error PyError.zeroDivisionError :=
  singleStep_no_error_off_origin Planet.init 5 planet_init_sum_sq planet_init_mass_ne
    PyError.zeroDivisionError

/-- Claim C7 counterexample: at the origin single_step does raise — the
force computation divides by r³ = 0 and the call fails with
ZeroDivisionError rather than returning a degenerate number. -/
theorem singleStep_error_at_origin :
    singleStep { x := 0, y := 0, z := 0, vx := 0, vy := 0, vz := 0, m := 1 } 1 =
      Except.error PyError.zeroDivisionError := by
  simp [singleStep]

/-- Claim C9: propagate with a negative num_steps returns normally with
zero steps executed: the body is returned exactly unchanged. -/
theorem propagate_negative_steps_noop (p : Planet) (T : ℝ) (N : ℤ) (hN : N < 0) :
    propagate p T N = Except.ok p :=
  propagate_of_neg p T N hN

/-- Claim C9 witness: propagate with num_steps = -3 returns the initial
body unchanged. -/
theorem propagate_negative_steps_noop_witness :
    propagate Planet.init 1 (-3) = Except.ok Planet.init :=
  propagate_negative_steps_noop Planet.init 1 (-3) (by decide)

/-- Claim C10: neither single_step nor propagate modifies the mass field:
whenever either returns a body, that body's mass equals the input mass. -/
theorem mass_preserved (p : Planet) (dt T : ℝ) (N : ℤ) (q r : Planet) :
    (singleStep p dt = Except.ok q → q.m = p.m) ∧
    (propagate p T N = Except.ok r → r.m = p.m) := by
  constructor
  · exact singleStep_mass_eq p dt q
  · intro h
    unfold propagate at h
    by_cases hN : N = 0
    · rw [if_pos hN] at h
      exact absurd h (by simp)
    · rw [if_neg hN] at h
      exact stepLoop_mass_eq (T / (N : ℝ)) N.toNat p r h

/-- Claim C10 witness: the mass of the body produced by one step from the
initial body equals the initial mass. -/
theorem mass_preserved_witness :
    ({ x := 1, y := 0, z := 1, vx := -1, vy := 0, vz := 1, m := 1 } : Planet).m =
      Planet.init.m :=
  (mass_preserved Planet.init 1 0 1
    { x := 1, y := 0, z := 1, vx := -1, vy := 0, vz := 1, m := 1 } Planet.init).1
    singleStep_init_one

lemma inv_sq_component (X v dt m : ℝ) (hX : X ≠ 0) (hm : m ≠ 0) :
    v + -X / X ^ 3 * dt / m = v - dt / (m * X ^ 2) := by
  field_simp
  ring

/-- Claim C8 (amended): in pure radial free-fall from (1, 0, 0) with
positive mass, for small enough positive dt (9·dt² ≤ m), the first step
leaves the radius unchanged — the position moves by the zero pre-step
velocity — and every following step strictly decreases the radius over
the first several iterations. -/
theorem freefall_radius_profile (m dt : ℝ) (hm : 0 < m) (hdt : 0 < dt)
    (hsmall : 9 * dt ^ 2 ≤ m) :
    radiusAfter (freefallBody m) dt 1 = radius (freefallBody m) ∧
    radiusAfter (freefallBody m) dt 2 < radiusAfter (freefallBody m) dt 1 ∧
    radiusAfter (freefallBody m) dt 3 < radiusAfter (freefallBody m) dt 2 ∧
    radiusAfter (freefallBody m) dt 4 < radiusAfter (freefallBody m) dt 3 := by
  have hm' : m ≠ 0 := hm.ne'
  have hA0 : 0 < dt ^ 2 / m := div_pos (pow_pos hdt 2) hm
  have hA9 : dt ^ 2 / m ≤ 1 / 9 := by
    rw [div_le_div_iff₀ hm (by norm_num : (0 : ℝ) < 9)]
    linarith
  have hX2pos : 0 < 1 - dt ^ 2 / m := by linarith
  have hX2ge : 8 / 9 ≤ 1 - dt ^ 2 / m := by linarith
  have hX3pos : 0 < 1 - 3 * (dt ^ 2 / m) := by linarith
  have h1 : singleStep (freefallBody m) dt =
      Except.ok { x := 1, y := 0, z := 0, vx := -(dt / m), vy := 0, vz := 0, m := m } := by
    rw [show freefallBody m =
      { x := 1, y := 0, z := 0, vx := 0, vy := 0, vz := 0, m := m } from rfl]
    rw [singleStep_axis 1 0 m dt one_pos hm']
    simp only [Except.ok.injEq, Planet.mk.injEq]
    exact ⟨by ring, trivial, trivial, by ring, trivial, trivial, trivial⟩
  have h2 : singleStep { x := 1, y := 0, z := 0, vx := -(dt / m), vy := 0, vz := 0, m := m } dt =
      Except.ok { x := 1 - dt ^ 2 / m, y := 0, z := 0,
                  vx := -(2 * dt / m), vy := 0, vz := 0, m := m } := by
    rw [singleStep_axis 1 (-(dt / m)) m dt one_pos hm']
    simp only [Except.ok.injEq, Planet.mk.injEq]
    exact ⟨by ring, trivial, trivial, by ring, trivial, trivial, trivial⟩
  have h3 : singleStep { x := 1 - dt ^ 2 / m, y := 0, z := 0,
                         vx := -(2 * dt / m), vy := 0, vz := 0, m := m } dt =
      Except.ok { x := 1 - 3 * (dt ^ 2 / m), y := 0, z := 0,
                  vx := -(2 * dt / m) - dt / (m * (1 - dt ^ 2 / m) ^ 2),
                  vy := 0, vz := 0, m := m } := by
    rw [singleStep_axis (1 - dt ^ 2 / m) (-(2 * dt / m)) m dt hX2pos hm']
    simp only [Except.ok.injEq, Planet.mk.injEq]
    refine ⟨by ring, trivial, trivial, ?_, trivial, trivial, trivial⟩
    exact inv_sq_component (1 - dt ^ 2 / m) (-(2 * dt / m)) dt m hX2pos.ne' hm'
  have h4 : singleStep { x := 1 - 3 * (dt ^ 2 / m), y := 0, z := 0,
                         vx := -(2 * dt / m) - dt / (m * (1 - dt ^ 2 / m) ^ 2),
                         vy := 0, vz := 0, m := m } dt =
      Except.ok { x := 1 - 5 * (dt ^ 2 / m) - dt ^ 2 / (m * (1 - dt ^ 2 / m) ^ 2),
                  y := 0, z := 0,
                  vx := -(2 * dt / m) - dt / (m * (1 - dt ^ 2 / m) ^ 2)
                        - dt / (m * (1 - 3 * (dt ^ 2 / m)) ^ 2),
                  vy := 0, vz := 0, m := m } := by
    rw [singleStep_axis (1 - 3 * (dt ^ 2 / m))
      (-(2 * dt / m) - dt / (m * (1 - dt ^ 2 / m) ^ 2)) m dt hX3pos hm']
    simp only [Except.ok.injEq, Planet.mk.injEq]
    refine ⟨by ring, trivial, trivial, ?_, trivial, trivial, trivial⟩
    exact inv_sq_component (1 - 3 * (dt ^ 2 / m))
      (-(2 * dt / m) - dt / (m * (1 - dt ^ 2 / m) ^ 2)) dt m hX3pos.ne' hm'
  have hL1 : stepLoop (freefallBody m) dt 1 =
      Except.ok { x := 1, y := 0, z := 0, vx := -(dt / m), vy := 0, vz := 0, m := m } :=
    (stepLoop_ok_step _ _ dt 0 h1).trans rfl
  have hL2 : stepLoop (freefallBody m) dt 2 =
      Except.ok { x := 1 - dt ^ 2 / m, y := 0, z := 0,
                  vx := -(2 * dt / m), vy := 0, vz := 0, m := m } :=
    (stepLoop_ok_step _ _ dt 1 h1).trans ((stepLoop_ok_step _ _ dt 0 h2).trans rfl)
  have hL3 : stepLoop (freefallBody m) dt 3 =
      Except.ok { x := 1 - 3 * (dt ^ 2 / m), y := 0, z := 0,
                  vx := -(2 * dt / m) - dt / (m * (1 - dt ^ 2 / m) ^ 2),
                  vy := 0, vz := 0, m := m } :=
    (stepLoop_ok_step _ _ dt 2 h1).trans ((stepLoop_ok_step _ _ dt 1 h2).trans
      ((stepLoop_ok_step _ _ dt 0 h3).trans rfl))
  have hL4 : stepLoop (freefallBody m) dt 4 =
      Except.ok { x := 1 - 5 * (dt ^ 2 / m) - dt ^ 2 / (m * (1 - dt ^ 2 / m) ^ 2),
                  y := 0, z := 0,
                  vx := -(2 * dt / m) - dt / (m * (1 - dt ^ 2 / m) ^ 2)
                        - dt / (m * (1 - 3 * (dt ^ 2 / m)) ^ 2),
                  vy := 0, vz := 0, m := m } :=
    (stepLoop_ok_step _ _ dt 3 h1).trans ((stepLoop_ok_step _ _ dt 2 h2).trans
      ((stepLoop_ok_step _ _ dt 1 h3).trans ((stepLoop_ok_step _ _ dt 0 h4).trans rfl)))
  have h64 : (64 : ℝ) / 81 ≤ (1 - dt ^ 2 / m) ^ 2 := by nlinarith
  have hB0 : 0 ≤ dt ^ 2 / (m * (1 - dt ^ 2 / m) ^ 2) := by positivity
  have hBle : dt ^ 2 / (m * (1 - dt ^ 2 / m) ^ 2) ≤ 9 / 64 := by
    calc dt ^ 2 / (m * (1 - dt ^ 2 / m) ^ 2)
        = dt ^ 2 / m / (1 - dt ^ 2 / m) ^ 2 := (div_div _ _ _).symm
      _ ≤ (1 / 9) / (64 / 81) :=
          div_le_div₀ (by norm_num) hA9 (by norm_num) h64
      _ ≤ 9 / 64 := by norm_num
  have hx4nonneg : 0 ≤ 1 - 5 * (dt ^ 2 / m) - dt ^ 2 / (m * (1 - dt ^ 2 / m) ^ 2) := by
    linarith
  have Rb : radius (freefallBody m) = 1 := by
    rw [show freefallBody m =
      { x := 1, y := 0, z := 0, vx := 0, vy := 0, vz := 0, m := m } from rfl]
    exact radius_axis 1 0 m (by norm_num)
  have R1 : radiusAfter (freefallBody m) dt 1 = 1 := by
    simp only [radiusAfter, hL1]
    exact radius_axis _ _ _ (by norm_num)
  have R2 : radiusAfter (freefallBody m) dt 2 = 1 - dt ^ 2 / m := by
    simp only [radiusAfter, hL2]
    exact radius_axis _ _ _ (by linarith)
  have R3 : radiusAfter (freefallBody m) dt 3 = 1 - 3 * (dt ^ 2 / m) := by
    simp only [radiusAfter, hL3]
    exact radius_axis _ _ _ (by linarith)
  have R4 : radiusAfter (freefallBody m) dt 4 =
      1 - 5 * (dt ^ 2 / m) - dt ^ 2 / (m * (1 - dt ^ 2 / m) ^ 2) := by
    simp only [radiusAfter, hL4]
    exact radius_axis _ _ _ hx4nonneg
  refine ⟨by rw [R1, Rb], ?_, ?_, ?_⟩
  · rw [R2, R1]; linarith
  · rw [R3, R2]; linarith
  · rw [R4, R3]; linarith

/-- Claim C8 witness: the radius profile instantiated at mass 1 and
dt = 1/10. -/
theorem freefall_radius_profile_witness :
    radiusAfter (freefallBody 1) (1 / 10) 1 = radius (freefallBody 1) ∧
    radiusAfter (freefallBody 1) (1 / 10) 2 < radiusAfter (freefallBody 1) (1 / 10) 1 ∧
    radiusAfter (freefallBody 1) (1 / 10) 3 < radiusAfter (freefallBody 1) (1 / 10) 2 ∧
    radiusAfter (freefallBody 1) (1 / 10) 4 < radiusAfter (freefallBody 1) (1 / 10) 3 :=
  freefall_radius_profile 1 (1 / 10) one_pos (by norm_num) (by norm_num)

/-- Claim C8 counterexample: with mass 1 and the small step dt = 1/10,
the radius after the first step equals the initial radius — it is not
smaller, so the radius is not strictly decreasing at every step. -/
theorem freefall_first_step_keeps_radius :
    radiusAfter (freefallBody 1) (1 / 10) 1 = radius (freefallBody 1) ∧
    ¬ radiusAfter (freefallBody 1) (1 / 10) 1 < radius (freefallBody 1) := by
  have h1 : singleStep (freefallBody 1) (1 / 10) =
      Except.ok { x := 1, y := 0, z := 0, vx := -(1 / 10), vy := 0, vz := 0, m := 1 } := by
    rw [show freefallBody 1 =
      { x := 1, y := 0, z := 0, vx := 0, vy := 0, vz := 0, m := 1 } from rfl]
    rw [singleStep_axis 1 0 1 (1 / 10) one_pos one_ne_zero]
    norm_num
  have hL1 : stepLoop (freefallBody 1) (1 / 10) 1 =
      Except.ok { x := 1, y := 0, z := 0, vx := -(1 / 10), vy := 0, vz := 0, m := 1 } :=
    (stepLoop_ok_step _ _ (1 / 10) 0 h1).trans rfl
  have R1 : radiusAfter (freefallBody 1) (1 / 10) 1 = 1 := by
    simp only [radiusAfter, hL1]
    exact radius_axis _ _ _ (by norm_num)
  have Rb : radius (freefallBody 1) = 1 := by
    rw [show freefallBody 1 =
      { x := 1, y := 0, z := 0, vx := 0, vy := 0, vz := 0, m := 1 } from rfl]
    exact radius_axis 1 0 1 (by norm_num)
  rw [R1, Rb]
  exact ⟨rfl, lt_irrefl 1⟩
